import Mathlib

/-!
Verification of the `youtrack-sdk` client library (`src/youtrack_sdk/client.py`)
against its natural-language specification.

The file shallowly embeds the request-construction and response-handling
pipeline of `Client`:

* `Json` models decoded JSON values (the result of `response.json()`).
* `YouTrackError` models the exception taxonomy (`YouTrackNotFound`,
  `YouTrackUnauthorized`, `YouTrackException`); the generic exception carries
  its message string.
* `Response` models an HTTP response as seen by `Client._send_request`:
  a status code and a body.
* `Client.handleResponse` embeds the response-handling half of
  `Client._send_request` (client.py lines 63-85).  The JSON decoder is an
  explicit parameter `decode : String → Option Json`, because the source
  delegates decoding to the external `requests`/`json` libraries; a claim
  that holds for every `decode` in particular cannot depend on parsing.
  `response.raise_for_status()` of the `requests` library raises `HTTPError`
  exactly when `400 ≤ status < 600`; the embedding reproduces that.
* `Request` models the keyword arguments `Client._send_request` passes to
  `self._session.request` (method, path, query params, serialized body,
  multipart files, per-request headers), and `Client.sendRequest` embeds the
  request-construction half (client.py lines 53-61).
* One definition per public operation builds the single `Request` that the
  operation issues (each public method of `Client` calls `_send_request`
  exactly once, through `_get`, `_post` or `_delete`).
-/

/-- A decoded JSON value, as returned by `response.json()`. -/
inductive Json where
  | null
  | bool (b : Bool)
  | num (n : Int)
  | str (s : String)
  | arr (elems : List Json)
  | obj (members : List (String × Json))

/-- The exception taxonomy of `youtrack_sdk.exceptions`:
`YouTrackNotFound`, `YouTrackUnauthorized`, and the generic
`YouTrackException`, which carries a message. -/
inductive YouTrackError where
  | notFound
  | unauthorized
  | exception (msg : String)
deriving DecidableEq, Repr

/-- An HTTP response as observed by `Client._send_request`: the status code
and the raw body (`response.content`, empty-checked before decoding). -/
structure Response where
  status : Nat
  content : String
deriving DecidableEq, Repr

/-- `pat` occurs as a contiguous substring of `s`. -/
def strContains (s pat : String) : Prop :=
  ∃ a b : String, a ++ pat ++ b = s

/-- The message of the `YouTrackException` raised on an unexpected status
code (client.py line 72): `Unexpected status code for {method} {path}:
{response.status_code}.` -/
def unexpectedStatusMessage (method path : String) (status : Nat) : String :=
  "Unexpected status code for " ++ method ++ " " ++ path ++ ": " ++ toString status ++ "."

/-- The message of the `YouTrackException` raised when a 2xx body fails to
decode (client.py line 84): `Failed to decode response from {method} {path},
status={response.status_code}`. -/
def decodeFailureMessage (method path : String) (status : Nat) : String :=
  "Failed to decode response from " ++ method ++ " " ++ path ++ ", status=" ++ toString status

namespace Client

/-- Response handling of `Client._send_request` (client.py lines 63-85):
404 raises `YouTrackNotFound`; 401 raises `YouTrackUnauthorized`; otherwise
`response.raise_for_status()` raises `HTTPError` exactly for statuses in
[400, 600), which is re-raised as a generic `YouTrackException`; an empty
body returns `None`; otherwise the body is decoded, a decode failure
raising a generic `YouTrackException`. -/
def handleResponse (decode : String → Option Json) (method path : String)
    (resp : Response) : Except YouTrackError (Option Json) :=
  if resp.status = 404 then
    .error .notFound
  else if resp.status = 401 then
    .error .unauthorized
  else if 400 ≤ resp.status ∧ resp.status < 600 then
    .error (.exception (unexpectedStatusMessage method path resp.status))
  else if resp.content.length = 0 then
    .ok none
  else
    match decode resp.content with
    | some j => .ok (some j)
    | none => .error (.exception (decodeFailureMessage method path resp.status))

end Client

/-- Python f-string interpolation of an `Optional[str]` attribute: `None`
renders as the string `None`. -/
def optStr : Option String → String
  | some s => s
  | none => "None"

/-- Modelled from the spec: `youtrack_sdk.entities.Issue` is not under
`src/`; section 3 describes an issue as id, summary, description (plus
references and sequences irrelevant to the claims), every field optional and
server-assigned or caller-set. -/
structure Issue where
  id : Option String := none
  summary : Option String := none
  description : Option String := none
deriving DecidableEq, Repr

/-- Modelled from the spec: `youtrack_sdk.entities.IssueComment` is not under
`src/`; section 3 describes a comment as id, text, author reference and a
`deleted`/hidden flag, every field optional. -/
structure IssueComment where
  id : Option String := none
  text : Option String := none
  author : Option String := none
  deleted : Option Bool := none
deriving DecidableEq, Repr

/-- Modelled from the spec: `youtrack_sdk.entities.IssueCustomFieldType` is
not under `src/`; only its optional `id` (used in the update path) and a name
matter to the claims. -/
structure IssueCustomField where
  id : Option String := none
  name : Option String := none
deriving DecidableEq, Repr

/-- Modelled from the spec: `youtrack_sdk.entities.IssueTag` is not under
`src/`; section 3 describes a tag as a simple reference entity (id plus
display name). -/
structure IssueTag where
  id : Option String := none
  name : Option String := none
deriving DecidableEq, Repr

/-- The body entities the operations pass to `_send_request` as `data`. -/
inductive Entity where
  | issue (i : Issue)
  | comment (c : IssueComment)
  | customField (f : IssueCustomField)
  | tag (t : IssueTag)
deriving DecidableEq, Repr

/-- Append a field to a JSON object body when it is set; unset fields are
omitted, not serialized as null. -/
def optMember (key : String) (v : Option Json) : List (String × Json) :=
  (v.map (fun j => (key, j))).toList

/-- Modelled from the spec: `youtrack_sdk.helpers.obj_to_json` is not under
`src/`; section 3 says a write body serializes only the fields the caller
set — "unset fields are omitted from the serialized body, not sent as null,
except where the API semantically requires an explicit ... marker (e.g.,
hiding a comment sends deleted=true explicitly)". -/
def obj_to_json : Entity → Json
  | .issue i =>
      .obj (optMember "id" (i.id.map .str) ++
            optMember "summary" (i.summary.map .str) ++
            optMember "description" (i.description.map .str))
  | .comment c =>
      .obj (optMember "id" (c.id.map .str) ++
            optMember "text" (c.text.map .str) ++
            optMember "author" (c.author.map .str) ++
            optMember "deleted" (c.deleted.map .bool))
  | .customField f =>
      .obj (optMember "id" (f.id.map .str) ++
            optMember "name" (f.name.map .str))
  | .tag t =>
      .obj (optMember "id" (t.id.map .str) ++
            optMember "name" (t.name.map .str))

/-- Multipart file parts: upload field name paired with a token standing for
the caller-supplied stream (`dict[str, IO]`). -/
abbrev Files := List (String × String)

/-- The entity types whose field selectors the operations request via
`model_to_field_names` (`Issue`, `IssueComment`, `IssueAttachment`,
`IssueCustomFieldType`, `Project`, `User`, `IssueTag`). -/
inductive EntityName where
  | issue
  | issueComment
  | issueAttachment
  | issueCustomFieldType
  | project
  | user
  | issueTag
deriving DecidableEq, Repr

/-- The request `Client._send_request` hands to `self._session.request`
(client.py lines 53-61): method, resource path (the URL is the fixed
`base_url + "/api"` prefix followed by `path`), query parameters, the
JSON-serialized body (`data and obj_to_json(data)`), the multipart file
parts, and the per-request headers (`data and {Content-Type:
application/json}` — `None` when no body entity is present). -/
structure Request where
  method : String
  path : String
  params : List (String × String)
  body : Option Json
  files : Option Files
  headers : Option (List (String × String))

namespace Client

/-- Request construction of `Client._send_request` (client.py lines 53-61):
the body is the JSON serialization of `data` when present, and the
`Content-Type: application/json` header is attached exactly when `data` is
present (`headers=data and {...}`). -/
def sendRequest (method path : String) (params : List (String × String))
    (data : Option Entity) (files : Option Files) : Request :=
  { method := method
    path := path
    params := params
    body := data.map obj_to_json
    files := files
    headers := data.map (fun _ => [("Content-Type", "application/json")]) }

/-- The query-parameter dict built by `Client._get` (client.py lines 99-108):
keys `fields`, `query`, `$skip`, `$top` in declaration order, each omitted
exactly when its value is `None`; integer values are rendered in the query
string by the transport. -/
def getParams (fields query : Option String) (offset count : Option Int) :
    List (String × String) :=
  (fields.map (fun f => ("fields", f))).toList ++
  (query.map (fun q => ("query", q))).toList ++
  (offset.map (fun o => ("$skip", toString o))).toList ++
  (count.map (fun c => ("$top", toString c))).toList

/-- The query-parameter dict built by `Client._post` (client.py lines
124-132): keys `fields`, `$skip`, `$top`, each omitted exactly when its
value is `None`. -/
def postParams (fields : Option String) (offset count : Option Int) :
    List (String × String) :=
  (fields.map (fun f => ("fields", f))).toList ++
  (offset.map (fun o => ("$skip", toString o))).toList ++
  (count.map (fun c => ("$top", toString c))).toList

/-- `Client._get` (client.py lines 87-109): a GET with the filtered
parameter dict and neither body nor files. -/
def getRequest (path : String) (fields query : Option String)
    (offset count : Option Int) : Request :=
  sendRequest "GET" path (getParams fields query offset count) none none

/-- `Client._post` (client.py lines 111-135): a POST with the filtered
parameter dict, an optional body entity and optional files. -/
def postRequest (path : String) (fields : Option String)
    (offset count : Option Int) (data : Option Entity) (files : Option Files) :
    Request :=
  sendRequest "POST" path (postParams fields offset count) data files

/-- `Client._delete` (client.py lines 137-138): a DELETE with no parameters,
body or files. -/
def deleteRequest (path : String) : Request :=
  sendRequest "DELETE" path [] none none

variable (model_to_field_names : EntityName → String)

/-- `Client.get_issues` (client.py lines 140-155): note that `offset` and
`count` are accepted but not passed on to `_get`. -/
def get_issues (query : String) (offset : Int := 0) (count : Int := -1) :
    Request :=
  getRequest "/issues" (some (model_to_field_names .issue)) (some query)
    none none

/-- `Client.get_issue` (client.py lines 157-168). -/
def get_issue (issue_id : String) : Request :=
  getRequest ("/issues/" ++ issue_id) (some (model_to_field_names .issue))
    none none none

/-- `Client.create_issue` (client.py lines 170-181). -/
def create_issue (issue : Issue) : Request :=
  postRequest "/issues" (some (model_to_field_names .issue)) none none
    (some (.issue issue)) none

/-- `Client.get_issue_custom_fields` (client.py lines 183-202). -/
def get_issue_custom_fields (issue_id : String) (offset : Int := 0)
    (count : Int := -1) : Request :=
  getRequest ("/issues/" ++ issue_id ++ "/customFields")
    (some (model_to_field_names .issueCustomFieldType)) none
    (some offset) (some count)

/-- `Client.update_issue_custom_field` (client.py lines 204-216); the path
interpolates `field.id`. -/
def update_issue_custom_field (issue_id : String) (field : IssueCustomField) :
    Request :=
  postRequest ("/issues/" ++ issue_id ++ "/customFields/" ++ optStr field.id)
    (some (model_to_field_names .issueCustomFieldType)) none none
    (some (.customField field)) none

/-- `Client.delete_issue` (client.py lines 218-223). -/
def delete_issue (issue_id : String) : Request :=
  deleteRequest ("/issues/" ++ issue_id)

/-- `Client.get_issue_comments` (client.py lines 225-238). -/
def get_issue_comments (issue_id : String) (offset : Int := 0)
    (count : Int := -1) : Request :=
  getRequest ("/issues/" ++ issue_id ++ "/comments")
    (some (model_to_field_names .issueComment)) none (some offset) (some count)

/-- `Client.create_issue_comment` (client.py lines 240-251). -/
def create_issue_comment (issue_id : String) (comment : IssueComment) :
    Request :=
  postRequest ("/issues/" ++ issue_id ++ "/comments")
    (some (model_to_field_names .issueComment)) none none
    (some (.comment comment)) none

/-- `Client.update_issue_comment` (client.py lines 253-264); the path
interpolates `comment.id`. -/
def update_issue_comment (issue_id : String) (comment : IssueComment) :
    Request :=
  postRequest ("/issues/" ++ issue_id ++ "/comments/" ++ optStr comment.id)
    (some (model_to_field_names .issueComment)) none none
    (some (.comment comment)) none

/-- `Client.hide_issue_comment` (client.py lines 266-271): delegates to
`update_issue_comment` with `IssueComment(id=comment_id, deleted=True)`. -/
def hide_issue_comment (issue_id comment_id : String) : Request :=
  update_issue_comment model_to_field_names issue_id
    { id := some comment_id, deleted := some true }

/-- `Client.delete_issue_comment` (client.py lines 273-278). -/
def delete_issue_comment (issue_id comment_id : String) : Request :=
  deleteRequest ("/issues/" ++ issue_id ++ "/comments/" ++ comment_id)

/-- `Client.get_issue_attachments` (client.py lines 280-293). -/
def get_issue_attachments (issue_id : String) (offset : Int := 0)
    (count : Int := -1) : Request :=
  getRequest ("/issues/" ++ issue_id ++ "/attachments")
    (some (model_to_field_names .issueAttachment)) none (some offset)
    (some count)

/-- `Client.create_issue_attachments` (client.py lines 295-308): files, no
body entity. -/
def create_issue_attachments (issue_id : String) (files : Files) : Request :=
  postRequest ("/issues/" ++ issue_id ++ "/attachments")
    (some (model_to_field_names .issueAttachment)) none none none (some files)

/-- `Client.create_comment_attachments` (client.py lines 310-324). -/
def create_comment_attachments (issue_id comment_id : String) (files : Files) :
    Request :=
  postRequest ("/issues/" ++ issue_id ++ "/comments/" ++ comment_id
      ++ "/attachments")
    (some (model_to_field_names .issueAttachment)) none none none (some files)

/-- `Client.get_projects` (client.py lines 326-339). -/
def get_projects (offset : Int := 0) (count : Int := -1) : Request :=
  getRequest "/admin/projects" (some (model_to_field_names .project)) none
    (some offset) (some count)

/-- `Client.get_tags` (client.py lines 341-354). -/
def get_tags (offset : Int := 0) (count : Int := -1) : Request :=
  getRequest "/issueTags" (some (model_to_field_names .issueTag)) none
    (some offset) (some count)

/-- `Client.add_issue_tag` (client.py lines 356-360): a POST with a body
entity but no `fields` parameter. -/
def add_issue_tag (issue_id : String) (tag : IssueTag) : Request :=
  postRequest ("/issues/" ++ issue_id ++ "/tags") none none none
    (some (.tag tag)) none

/-- `Client.get_users` (client.py lines 362-375). -/
def get_users (offset : Int := 0) (count : Int := -1) : Request :=
  getRequest "/users" (some (model_to_field_names .user)) none (some offset)
    (some count)

/-- The sequence of network calls `Client.update_issue_comment` makes: its
single `_post`. -/
def update_issue_comment_calls (issue_id : String) (comment : IssueComment) :
    List Request :=
  [update_issue_comment model_to_field_names issue_id comment]

/-- The sequence of network calls `Client.hide_issue_comment` makes: exactly
the calls of the `update_issue_comment` it delegates to (client.py line
271). -/
def hide_issue_comment_calls (issue_id comment_id : String) : List Request :=
  update_issue_comment_calls model_to_field_names issue_id
    { id := some comment_id, deleted := some true }

end Client

/-- The value a raw-capable operation returns: either the unparsed JSON
value of the response (`raw=True`) or the typed entity parsed from it. -/
inductive RawOrParsed (α : Type) where
  | raw (value : Option Json)
  | parsed (value : α)

/-- Read an optional JSON member as a string, when it is one. -/
def asString : Option Json → Option String
  | some (.str s) => some s
  | _ => none

/-- Modelled from the spec: pydantic's `Issue.parse_obj` (the entities are
not under `src/`); parsing a server response populates every declared field
or defaults it, and a missing or non-object payload is a validation
error. -/
def parseIssue : Option Json → Except String Issue
  | some (.obj members) =>
      .ok { id := asString (List.lookup "id" members)
            summary := asString (List.lookup "summary" members)
            description := asString (List.lookup "description" members) }
  | _ => .error "validation error"

/-- Modelled from the spec: `parse_obj_as(tuple[Issue, ...], result)`;
parses a JSON array element-wise, preserving server order, and anything
other than an array is a validation error. -/
def parseIssues : Option Json → Except String (List Issue)
  | some (.arr elems) => elems.mapM (fun j => parseIssue (some j))
  | _ => .error "validation error"

namespace Client

/-- Result handling of `Client.get_issue` (client.py lines 162-168): when
`raw` is set the unparsed JSON value of the response is returned verbatim;
otherwise it is parsed into an `Issue`. -/
def get_issue_result (raw : Bool) (result : Option Json) :
    Except String (RawOrParsed Issue) :=
  if raw then .ok (.raw result) else (parseIssue result).map .parsed

/-- Result handling of `Client.get_issues` (client.py lines 150-155): when
`raw` is set the unparsed JSON value of the response is returned verbatim;
otherwise it is parsed into a sequence of `Issue`s. -/
def get_issues_result (raw : Bool) (result : Option Json) :
    Except String (RawOrParsed (List Issue)) :=
  if raw then .ok (.raw result) else (parseIssues result).map .parsed

end Client

/-- Signature facts of one public operation of `Client`: whether its
declared return type is a parsed entity or sequence of entities, and whether
the signature offers a `raw` escape-hatch parameter. -/
structure OperationSig where
  name : String
  returnsEntities : Bool
  hasRawOption : Bool
deriving DecidableEq, Repr

/-- The public operations of `Client` (client.py lines 140-375), transcribed
from their signatures: `get_issues` and `get_issue` take `raw: bool = False`;
no other operation does.  `delete_issue`, `hide_issue_comment`,
`delete_issue_comment` and `add_issue_tag` return nothing. -/
def operations : List OperationSig :=
  [⟨"get_issues", true, true⟩,
   ⟨"get_issue", true, true⟩,
   ⟨"create_issue", true, false⟩,
   ⟨"get_issue_custom_fields", true, false⟩,
   ⟨"update_issue_custom_field", true, false⟩,
   ⟨"delete_issue", false, false⟩,
   ⟨"get_issue_comments", true, false⟩,
   ⟨"create_issue_comment", true, false⟩,
   ⟨"update_issue_comment", true, false⟩,
   ⟨"hide_issue_comment", false, false⟩,
   ⟨"delete_issue_comment", false, false⟩,
   ⟨"get_issue_attachments", true, false⟩,
   ⟨"create_issue_attachments", true, false⟩,
   ⟨"create_comment_attachments", true, false⟩,
   ⟨"get_projects", true, false⟩,
   ⟨"get_tags", true, false⟩,
   ⟨"add_issue_tag", false, false⟩,
   ⟨"get_users", true, false⟩]

/-- Helper: on a status that is neither 404 nor 401 nor in the
`raise_for_status` range [400, 600), `handleResponse` reduces to the
body-handling branch. -/
theorem handleResponse_success_case (decode : String → Option Json)
    (method path : String) (s : Nat) (c : String)
    (h404 : ¬ s = 404) (h401 : ¬ s = 401) (hr : ¬ (400 ≤ s ∧ s < 600)) :
    Client.handleResponse decode method path ⟨s, c⟩ =
      if c.length = 0 then .ok none
      else
        match decode c with
        | some j => .ok (some j)
        | none => .error (.exception (decodeFailureMessage method path s)) := by
  unfold Client.handleResponse
  rw [if_neg h404, if_neg h401, if_neg hr]

/-- C1: `Client._send_request` raises `YouTrackNotFound` on status 404 and
`YouTrackUnauthorized` on status 401, for every method and path (hence for
every operation, all of which delegate to `_send_request`), and it does so
regardless of the response body and of the JSON decoder — the universal
quantification over `decode` and `content` shows the error is raised before
any attempt to parse the body. -/
theorem notFound_unauthorized_before_parsing
    (decode : String → Option Json) (method path content : String) :
    Client.handleResponse decode method path ⟨404, content⟩ = .error .notFound ∧
    Client.handleResponse decode method path ⟨401, content⟩ = .error .unauthorized := by
  constructor <;> simp [Client.handleResponse]

/-- Witness for C1 at a concrete decoder, method, path and body. -/
theorem notFound_unauthorized_before_parsing_witness :
    Client.handleResponse (fun _ => none) "GET" "/issues" ⟨404, "irrelevant"⟩
      = .error .notFound ∧
    Client.handleResponse (fun _ => none) "GET" "/issues" ⟨401, "irrelevant"⟩
      = .error .unauthorized :=
  notFound_unauthorized_before_parsing (fun _ => none) "GET" "/issues" "irrelevant"

/-- C9: `Client.get_issues` accepts `offset` and `count` but never forwards
them to `_get` (client.py lines 145-149 pass only `path`, `query` and
`fields`), so for a fixed filter query any two offset/count pairs produce
exactly the same request; the result of the call is a function of the
request alone, so they have no effect on the result either. -/
theorem get_issues_pagination_has_no_effect
    (model_to_field_names : EntityName → String) (query : String)
    (offset₁ count₁ offset₂ count₂ : Int) :
    Client.get_issues model_to_field_names query offset₁ count₁ =
      Client.get_issues model_to_field_names query offset₂ count₂ :=
  rfl

/-- C2 counterexample: `get_issues` is a list operation taking the
pagination pair, yet called with offset=10 and count=5 its request carries
neither `$skip` nor `$top` — the keys are omitted although neither argument
is the "use default" sentinel. -/
theorem get_issues_pagination_counterexample :
    List.lookup "$skip"
        (Client.get_issues (fun _ => "f") "q" 10 5).params = none ∧
    List.lookup "$top"
        (Client.get_issues (fun _ => "f") "q" 10 5).params = none :=
  ⟨rfl, rfl⟩

/-- C2 amended: every list operation taking the pagination pair except
`get_issues` forwards it — called with offset=o and count=c the request
carries `$skip=o` and `$top=c`, for all o and c (in particular `$skip=10`,
`$top=5` for 10 and 5, and the keys are never omitted: the non-sentinel
defaults 0 and -1 are sent literally) — while `get_issues` accepts the pair
but omits both keys regardless of its value. -/
theorem pagination_forwarding_amended
    (model_to_field_names : EntityName → String) (issue_id query : String)
    (o c : Int) :
    List.lookup "$skip"
        (Client.get_issue_custom_fields model_to_field_names issue_id o c).params
      = some (toString o) ∧
    List.lookup "$top"
        (Client.get_issue_custom_fields model_to_field_names issue_id o c).params
      = some (toString c) ∧
    List.lookup "$skip"
        (Client.get_issue_comments model_to_field_names issue_id o c).params
      = some (toString o) ∧
    List.lookup "$top"
        (Client.get_issue_comments model_to_field_names issue_id o c).params
      = some (toString c) ∧
    List.lookup "$skip"
        (Client.get_issue_attachments model_to_field_names issue_id o c).params
      = some (toString o) ∧
    List.lookup "$top"
        (Client.get_issue_attachments model_to_field_names issue_id o c).params
      = some (toString c) ∧
    List.lookup "$skip"
        (Client.get_projects model_to_field_names o c).params
      = some (toString o) ∧
    List.lookup "$top"
        (Client.get_projects model_to_field_names o c).params
      = some (toString c) ∧
    List.lookup "$skip"
        (Client.get_tags model_to_field_names o c).params
      = some (toString o) ∧
    List.lookup "$top"
        (Client.get_tags model_to_field_names o c).params
      = some (toString c) ∧
    List.lookup "$skip"
        (Client.get_users model_to_field_names o c).params
      = some (toString o) ∧
    List.lookup "$top"
        (Client.get_users model_to_field_names o c).params
      = some (toString c) ∧
    List.lookup "$skip"
        (Client.get_issues model_to_field_names query o c).params = none ∧
    List.lookup "$top"
        (Client.get_issues model_to_field_names query o c).params = none :=
  ⟨rfl, rfl, rfl, rfl, rfl, rfl, rfl, rfl, rfl, rfl, rfl, rfl, rfl, rfl⟩

/-- C3: on a 2xx status, an empty body yields the no-content result
(`Except.ok none`), a `[]` body yields the empty JSON array
(`Except.ok (some (Json.arr []))`), and the two results are distinct, so a
caller can always tell an empty-body response from an empty-array
response. -/
theorem no_content_distinct_from_empty_array
    (decode : String → Option Json) (method path : String) (s : Nat)
    (h₁ : 200 ≤ s) (h₂ : s < 300)
    (hdec : decode "[]" = some (.arr [])) :
    Client.handleResponse decode method path ⟨s, ""⟩ = .ok none ∧
    Client.handleResponse decode method path ⟨s, "[]"⟩
      = .ok (some (.arr [])) ∧
    (Except.ok none : Except YouTrackError (Option Json))
      ≠ .ok (some (.arr [])) := by
  have h404 : ¬ s = 404 := by omega
  have h401 : ¬ s = 401 := by omega
  have hrfs : ¬ (400 ≤ s ∧ s < 600) := by omega
  refine ⟨?_, ?_, ?_⟩
  · rw [handleResponse_success_case decode method path s "" h404 h401 hrfs]
    rfl
  · rw [handleResponse_success_case decode method path s "[]" h404 h401 hrfs,
      if_neg (by decide : ¬ ("[]" : String).length = 0), hdec]
  · intro h
    exact Option.noConfusion (Except.ok.inj h)

/-- Witness for C3 at status 200 with a concrete decoder that decodes `[]`
to the empty JSON array. -/
theorem no_content_distinct_from_empty_array_witness :
    Client.handleResponse
        (fun c => if c = "[]" then some (.arr []) else none)
        "GET" "/issues" ⟨200, ""⟩ = .ok none ∧
    Client.handleResponse
        (fun c => if c = "[]" then some (.arr []) else none)
        "GET" "/issues" ⟨200, "[]"⟩ = .ok (some (.arr [])) ∧
    (Except.ok none : Except YouTrackError (Option Json))
      ≠ .ok (some (.arr [])) :=
  no_content_distinct_from_empty_array
    (fun c => if c = "[]" then some (.arr []) else none)
    "GET" "/issues" 200 (by decide) (by decide) rfl

/-- C5 counterexample: status 304 is a non-2xx status other than 404 and
401, yet `_send_request` raises no error there: `response.raise_for_status()`
raises only for statuses in [400, 600), so a 304 with an empty body yields
the no-content success result instead of the generic client error. -/
theorem non2xx_without_error_counterexample :
    Client.handleResponse (fun _ => none) "GET" "/issues" ⟨304, ""⟩
      = .ok none ∧
    (Except.ok (none : Option Json) : Except YouTrackError (Option Json))
      ≠ .error (.exception (unexpectedStatusMessage "GET" "/issues" 304)) :=
  ⟨rfl, fun h => Except.noConfusion h⟩

/-- C5 amended: any status in [400, 600) other than 404 and 401 raises the
generic client error whose message contains the HTTP verb, the resource path
and the status code; a 2xx response whose non-empty body fails to decode
raises the generic client error whose message contains verb, path and
status; a status outside both [200, 300) and [400, 600) (such as 304) with
an empty body raises nothing and yields the no-content result. -/
theorem generic_error_messages_amended (decode : String → Option Json)
    (method path : String) (s : Nat) (c : String) :
    (400 ≤ s → s < 600 → ¬ s = 404 → ¬ s = 401 →
      Client.handleResponse decode method path ⟨s, c⟩
        = .error (.exception (unexpectedStatusMessage method path s)) ∧
      strContains (unexpectedStatusMessage method path s) method ∧
      strContains (unexpectedStatusMessage method path s) path ∧
      strContains (unexpectedStatusMessage method path s) (toString s)) ∧
    (200 ≤ s → s < 300 → ¬ c.length = 0 → decode c = none →
      Client.handleResponse decode method path ⟨s, c⟩
        = .error (.exception (decodeFailureMessage method path s)) ∧
      strContains (decodeFailureMessage method path s) method ∧
      strContains (decodeFailureMessage method path s) path ∧
      strContains (decodeFailureMessage method path s) (toString s)) ∧
    (¬ (400 ≤ s ∧ s < 600) → ¬ s = 404 → ¬ s = 401 → c.length = 0 →
      Client.handleResponse decode method path ⟨s, c⟩ = .ok none) := by
  refine ⟨fun h₁ h₂ h404 h401 => ⟨?_, ?_, ?_, ?_⟩,
    fun h₁ h₂ hlen hdec => ⟨?_, ?_, ?_, ?_⟩,
    fun hr h404 h401 hlen => ?_⟩
  · unfold Client.handleResponse
    rw [if_neg h404, if_neg h401, if_pos (⟨h₁, h₂⟩ : 400 ≤ s ∧ s < 600)]
  · exact ⟨"Unexpected status code for ",
      " " ++ path ++ ": " ++ toString s ++ ".",
      by simp [unexpectedStatusMessage, String.append_assoc]⟩
  · exact ⟨"Unexpected status code for " ++ method ++ " ",
      ": " ++ toString s ++ ".",
      by simp [unexpectedStatusMessage, String.append_assoc]⟩
  · exact ⟨"Unexpected status code for " ++ method ++ " " ++ path ++ ": ",
      ".", by simp [unexpectedStatusMessage, String.append_assoc]⟩
  · rw [handleResponse_success_case decode method path s c (by omega)
      (by omega) (by omega), if_neg hlen, hdec]
  · exact ⟨"Failed to decode response from ",
      " " ++ path ++ ", status=" ++ toString s,
      by simp [decodeFailureMessage, String.append_assoc]⟩
  · exact ⟨"Failed to decode response from " ++ method ++ " ",
      ", status=" ++ toString s,
      by simp [decodeFailureMessage, String.append_assoc]⟩
  · exact ⟨"Failed to decode response from " ++ method ++ " " ++ path
        ++ ", status=", "",
      by simp [decodeFailureMessage, String.append_assoc]⟩
  · rw [handleResponse_success_case decode method path s c h404 h401 hr,
      if_pos hlen]

/-- Witness for C5 (amended) at concrete inputs: a 500 with verb GET and
path /x, a 200 whose body `x` fails to decode, and a 304 with an empty
body. -/
theorem generic_error_messages_amended_witness :
    (Client.handleResponse (fun _ => none) "GET" "/x" ⟨500, "oops"⟩
        = .error (.exception (unexpectedStatusMessage "GET" "/x" 500)) ∧
      strContains (unexpectedStatusMessage "GET" "/x" 500) "GET" ∧
      strContains (unexpectedStatusMessage "GET" "/x" 500) "/x" ∧
      strContains (unexpectedStatusMessage "GET" "/x" 500) (toString 500)) ∧
    (Client.handleResponse (fun _ => none) "GET" "/x" ⟨200, "x"⟩
        = .error (.exception (decodeFailureMessage "GET" "/x" 200)) ∧
      strContains (decodeFailureMessage "GET" "/x" 200) "GET" ∧
      strContains (decodeFailureMessage "GET" "/x" 200) "/x" ∧
      strContains (decodeFailureMessage "GET" "/x" 200) (toString 200)) ∧
    Client.handleResponse (fun _ => none) "GET" "/x" ⟨304, ""⟩ = .ok none :=
  ⟨(generic_error_messages_amended (fun _ => none) "GET" "/x" 500 "oops").1
      (by decide) (by decide) (by decide) (by decide),
    (generic_error_messages_amended (fun _ => none) "GET" "/x" 200 "x").2.1
      (by decide) (by decide) (by decide) rfl,
    (generic_error_messages_amended (fun _ => none) "GET" "/x" 304 "").2.2
      (by decide) (by decide) (by decide) rfl⟩

/-- C4: `hide_issue_comment(issue_id, comment_id)` makes exactly the network
calls of `update_issue_comment(issue_id, comment)` where `comment` carries
only id=comment_id and deleted=true (every other field unset), and that is a
single request — no additional network call. -/
theorem hide_comment_equals_update_with_deleted
    (model_to_field_names : EntityName → String)
    (issue_id comment_id : String) :
    Client.hide_issue_comment_calls model_to_field_names issue_id comment_id =
      Client.update_issue_comment_calls model_to_field_names issue_id
        { id := some comment_id, text := none, author := none,
          deleted := some true } ∧
    (Client.hide_issue_comment_calls model_to_field_names issue_id
        comment_id).length = 1 :=
  ⟨rfl, rfl⟩

/-- C6 counterexample: `get_issue_comments` returns a parsed sequence of
entities but its signature offers no `raw` escape hatch, so not every
entity-returning operation offers one. -/
theorem raw_escape_hatch_counterexample :
    OperationSig.mk "get_issue_comments" true false ∈ operations ∧
    ¬ ∀ op ∈ operations, op.returnsEntities = true → op.hasRawOption = true := by
  decide

/-- C6 amended: exactly two operations, `get_issues` and `get_issue`, offer
the `raw` escape hatch; every other operation that returns a parsed entity
or sequence of entities always parses.  Where the escape hatch exists,
requesting `raw` returns the unparsed JSON value of the response
verbatim. -/
theorem raw_escape_hatch_amended :
    (∀ op ∈ operations,
      op.hasRawOption = true ↔ (op.name = "get_issues" ∨ op.name = "get_issue")) ∧
    (∀ result : Option Json,
      Client.get_issue_result true result = .ok (.raw result) ∧
      Client.get_issues_result true result = .ok (.raw result)) := by
  refine ⟨by decide, fun result => ⟨rfl, rfl⟩⟩

/-- Witness for C6 (amended) at the `get_issue` table entry and a concrete
raw response value. -/
theorem raw_escape_hatch_amended_witness :
    (OperationSig.mk "get_issue" true true).hasRawOption = true ∧
    Client.get_issue_result true (some (.arr []))
      = .ok (.raw (some (.arr []))) :=
  ⟨(raw_escape_hatch_amended.1 ⟨"get_issue", true, true⟩ (by decide)).mpr
      (Or.inr rfl),
    (raw_escape_hatch_amended.2 (some (.arr []))).1⟩

/-- C7 counterexample: `add_issue_tag` issues a POST — it is not a
pure-delete operation — yet its request carries no `fields` query
parameter, so the field selector is not skipped only by the pure-delete
operations. -/
theorem add_issue_tag_fields_counterexample :
    List.lookup "fields"
        (Client.add_issue_tag "I-1" { id := some "T-1" }).params = none ∧
    (Client.add_issue_tag "I-1" { id := some "T-1" }).method = "POST" :=
  ⟨rfl, rfl⟩

/-- C7 amended: every operation except the pure-delete operations
(`delete_issue`, `delete_issue_comment`) and `add_issue_tag` resolves the
field selector for its return entity type and sends it as the `fields`
query parameter; the two deletes and `add_issue_tag` send no `fields`
parameter. -/
theorem fields_parameter_amended (model_to_field_names : EntityName → String)
    (issue_id comment_id query : String) (o c : Int) (issue : Issue)
    (comment : IssueComment) (field : IssueCustomField) (tag : IssueTag)
    (files : Files) :
    List.lookup "fields"
        (Client.get_issues model_to_field_names query o c).params
      = some (model_to_field_names .issue) ∧
    List.lookup "fields"
        (Client.get_issue model_to_field_names issue_id).params
      = some (model_to_field_names .issue) ∧
    List.lookup "fields"
        (Client.create_issue model_to_field_names issue).params
      = some (model_to_field_names .issue) ∧
    List.lookup "fields"
        (Client.get_issue_custom_fields model_to_field_names issue_id o c).params
      = some (model_to_field_names .issueCustomFieldType) ∧
    List.lookup "fields"
        (Client.update_issue_custom_field model_to_field_names issue_id field).params
      = some (model_to_field_names .issueCustomFieldType) ∧
    List.lookup "fields"
        (Client.get_issue_comments model_to_field_names issue_id o c).params
      = some (model_to_field_names .issueComment) ∧
    List.lookup "fields"
        (Client.create_issue_comment model_to_field_names issue_id comment).params
      = some (model_to_field_names .issueComment) ∧
    List.lookup "fields"
        (Client.update_issue_comment model_to_field_names issue_id comment).params
      = some (model_to_field_names .issueComment) ∧
    List.lookup "fields"
        (Client.hide_issue_comment model_to_field_names issue_id comment_id).params
      = some (model_to_field_names .issueComment) ∧
    List.lookup "fields"
        (Client.get_issue_attachments model_to_field_names issue_id o c).params
      = some (model_to_field_names .issueAttachment) ∧
    List.lookup "fields"
        (Client.create_issue_attachments model_to_field_names issue_id files).params
      = some (model_to_field_names .issueAttachment) ∧
    List.lookup "fields"
        (Client.create_comment_attachments model_to_field_names issue_id
          comment_id files).params
      = some (model_to_field_names .issueAttachment) ∧
    List.lookup "fields"
        (Client.get_projects model_to_field_names o c).params
      = some (model_to_field_names .project) ∧
    List.lookup "fields"
        (Client.get_tags model_to_field_names o c).params
      = some (model_to_field_names .issueTag) ∧
    List.lookup "fields"
        (Client.get_users model_to_field_names o c).params
      = some (model_to_field_names .user) ∧
    List.lookup "fields" (Client.delete_issue issue_id).params = none ∧
    List.lookup "fields"
        (Client.delete_issue_comment issue_id comment_id).params = none ∧
    List.lookup "fields" (Client.add_issue_tag issue_id tag).params = none :=
  ⟨rfl, rfl, rfl, rfl, rfl, rfl, rfl, rfl, rfl, rfl, rfl, rfl, rfl, rfl, rfl,
    rfl, rfl, rfl⟩

/-- C8: no operation's request carries both a JSON-serialized body entity
and multipart file parts — for every operation and all arguments, at most
one of `body` and `files` is set in the request handed to the transport. -/
theorem never_both_body_and_files (model_to_field_names : EntityName → String)
    (issue_id comment_id query : String) (o c : Int) (issue : Issue)
    (comment : IssueComment) (field : IssueCustomField) (tag : IssueTag)
    (files : Files) :
    (((Client.get_issues model_to_field_names query o c).body.isSome &&
      (Client.get_issues model_to_field_names query o c).files.isSome) = false) ∧
    (((Client.get_issue model_to_field_names issue_id).body.isSome &&
      (Client.get_issue model_to_field_names issue_id).files.isSome) = false) ∧
    (((Client.create_issue model_to_field_names issue).body.isSome &&
      (Client.create_issue model_to_field_names issue).files.isSome) = false) ∧
    (((Client.get_issue_custom_fields model_to_field_names issue_id o c).body.isSome &&
      (Client.get_issue_custom_fields model_to_field_names issue_id o c).files.isSome) = false) ∧
    (((Client.update_issue_custom_field model_to_field_names issue_id field).body.isSome &&
      (Client.update_issue_custom_field model_to_field_names issue_id field).files.isSome) = false) ∧
    (((Client.delete_issue issue_id).body.isSome &&
      (Client.delete_issue issue_id).files.isSome) = false) ∧
    (((Client.get_issue_comments model_to_field_names issue_id o c).body.isSome &&
      (Client.get_issue_comments model_to_field_names issue_id o c).files.isSome) = false) ∧
    (((Client.create_issue_comment model_to_field_names issue_id comment).body.isSome &&
      (Client.create_issue_comment model_to_field_names issue_id comment).files.isSome) = false) ∧
    (((Client.update_issue_comment model_to_field_names issue_id comment).body.isSome &&
      (Client.update_issue_comment model_to_field_names issue_id comment).files.isSome) = false) ∧
    (((Client.hide_issue_comment model_to_field_names issue_id comment_id).body.isSome &&
      (Client.hide_issue_comment model_to_field_names issue_id comment_id).files.isSome) = false) ∧
    (((Client.delete_issue_comment issue_id comment_id).body.isSome &&
      (Client.delete_issue_comment issue_id comment_id).files.isSome) = false) ∧
    (((Client.get_issue_attachments model_to_field_names issue_id o c).body.isSome &&
      (Client.get_issue_attachments model_to_field_names issue_id o c).files.isSome) = false) ∧
    (((Client.create_issue_attachments model_to_field_names issue_id files).body.isSome &&
      (Client.create_issue_attachments model_to_field_names issue_id files).files.isSome) = false) ∧
    (((Client.create_comment_attachments model_to_field_names issue_id comment_id files).body.isSome &&
      (Client.create_comment_attachments model_to_field_names issue_id comment_id files).files.isSome) = false) ∧
    (((Client.get_projects model_to_field_names o c).body.isSome &&
      (Client.get_projects model_to_field_names o c).files.isSome) = false) ∧
    (((Client.get_tags model_to_field_names o c).body.isSome &&
      (Client.get_tags model_to_field_names o c).files.isSome) = false) ∧
    (((Client.add_issue_tag issue_id tag).body.isSome &&
      (Client.add_issue_tag issue_id tag).files.isSome) = false) ∧
    (((Client.get_users model_to_field_names o c).body.isSome &&
      (Client.get_users model_to_field_names o c).files.isSome) = false) :=
  ⟨rfl, rfl, rfl, rfl, rfl, rfl, rfl, rfl, rfl, rfl, rfl, rfl, rfl, rfl, rfl,
    rfl, rfl, rfl⟩

/-- C10: `_send_request` attaches the `Content-Type: application/json`
header exactly when a body entity is present (`headers=data and {...}`), and
when it does, that is the only per-request header it sets; multipart upload
requests (which carry files but no body entity) and body-less requests get
no explicit Content-Type header. -/
theorem content_type_header_iff_body (method path : String)
    (params : List (String × String)) (data : Option Entity)
    (files : Option Files) (model_to_field_names : EntityName → String)
    (issue_id comment_id : String) (fs : Files) :
    ((Client.sendRequest method path params data files).headers.isSome
      = (Client.sendRequest method path params data files).body.isSome) ∧
    ((Client.sendRequest method path params data files).headers = none ∨
      (Client.sendRequest method path params data files).headers
        = some [("Content-Type", "application/json")]) ∧
    (Client.create_issue_attachments model_to_field_names issue_id fs).headers
      = none ∧
    (Client.create_comment_attachments model_to_field_names issue_id
      comment_id fs).headers = none ∧
    (Client.deleteRequest path).headers = none ∧
    (Client.getRequest path none none none none).headers = none := by
  cases data with
  | none => exact ⟨rfl, Or.inl rfl, rfl, rfl, rfl, rfl⟩
  | some e => exact ⟨rfl, Or.inr rfl, rfl, rfl, rfl, rfl⟩
